import Mathlib

/-
Shallow embedding of the client-side streaming event reducer of
devin_app/frontend/app.js.

The reducer lives in sendMessage: it reads the response body chunk by
chunk, splits each decoded chunk on the newline character, and for each
line that starts with the six characters "data: " tries to JSON-decode
the rest of the line and dispatches on the decoded type field.  The
assistant transcript entry is a DOM subtree (the message content div);
we model its child list explicitly, because showToolIndicator inserts
and mutates badge elements in it and updateMessageContent overwrites it
wholesale through an innerHTML assignment.
-/

/-- Named characters used by the wire-format parser (kept out of string
literals for clarity). -/
def quoteChar : Char := Char.ofNat 34

/-- Backslash character, the JSON escape introducer. -/
def backslashChar : Char := Char.ofNat 92

/-- Opening curly brace character. -/
def lbraceChar : Char := Char.ofNat 123

/-- Closing curly brace character. -/
def rbraceChar : Char := Char.ofNat 125

/-- One child node of the assistant message content div.  The code
distinguishes the loading indicator (class loading-indicator), a tool
badge (class tool-indicator with a data-tool attribute; the Bool is
true when the class is tool-indicator complete, false when active; the
String is the textContent), and the markdown render slot produced by an
innerHTML assignment from renderMarkdown of the given content string. -/
inductive DomNode where
  | loading : DomNode
  | toolBadge (tool : String) (complete : Bool) (text : String) : DomNode
  | rendered (content : String) : DomNode
deriving DecidableEq, Repr

/-- Test for the loading indicator node, as matched by the
querySelector call on class loading-indicator. -/
def isLoadingNode : DomNode → Bool
  | DomNode.loading => true
  | _ => false

/-- Test for a tool badge whose data-tool attribute equals the given
name, as matched by the querySelector call on the tool-indicator class
with an attribute selector. -/
def isBadgeFor : DomNode → String → Bool
  | DomNode.toolBadge t _ _, x => t == x
  | _, _ => false

/-- Whether some badge for the given tool exists among the children
(querySelector finding a match). -/
def hasBadge (ns : List DomNode) (x : String) : Bool :=
  ns.any (fun n => isBadgeFor n x)

/-- Whether an active (not complete) badge for the tool exists. -/
def hasActiveBadge (ns : List DomNode) (x : String) : Bool :=
  ns.any (fun n =>
    match n with
    | DomNode.toolBadge t c _ => t == x && !c
    | _ => false)

/-- Number of badges for the given tool among the children. -/
def countBadge (ns : List DomNode) (x : String) : Nat :=
  ns.countP (fun n => isBadgeFor n x)

/-- Whether a loading indicator is present among the children. -/
def hasLoading (ns : List DomNode) : Bool :=
  ns.any isLoadingNode

/-- Insert a new node before the first loading indicator; if there is
none, the node goes in front of the whole list.  This is the insertion
performed by showToolIndicator: insertBefore the loading indicator when
querySelector finds one, otherwise insertBefore the first child (which
on an empty parent appends, giving the singleton list). -/
def insBeforeLoading : List DomNode → DomNode → List DomNode
  | [], b => [b]
  | n :: rest, b =>
    if isLoadingNode n then b :: n :: rest else n :: insBeforeLoading rest b

/-- Insertion step of showToolIndicator for a fresh badge. -/
def insertToolIndicator (ns : List DomNode) (b : DomNode) : List DomNode :=
  if hasLoading ns then insBeforeLoading ns b else b :: ns

/-- Flip the first badge for the tool to the complete state, updating
its class and textContent exactly as the code does; when no badge for
the tool exists the list is returned unchanged, because the code guards
the mutation with a truthiness check on the querySelector result. -/
def markComplete : List DomNode → String → List DomNode
  | [], _ => []
  | n :: rest, x =>
    if isBadgeFor n x then
      DomNode.toolBadge x true ("Used: " ++ x) :: rest
    else
      n :: markComplete rest x

/-- Embedding of showToolIndicator(messageId, toolName, isActive),
restricted to its effect on the content div child list.  With isActive
true it creates an active badge only when none exists (any existing
badge, active or complete, makes it a no-op); with isActive false it
flips the first existing badge to complete and otherwise does
nothing. -/
def showToolIndicator (ns : List DomNode) (toolName : String) (isActive : Bool) :
    List DomNode :=
  if isActive then
    if hasBadge ns toolName then ns
    else
      insertToolIndicator ns
        (DomNode.toolBadge toolName false ("Using: " ++ toolName ++ "..."))
  else
    markComplete ns toolName

/-- Removal of the first loading indicator child (the remove call that
updateMessageContent and removeLoadingIndicator perform after a
successful querySelector). -/
def removeFirstLoading : List DomNode → List DomNode
  | [] => []
  | n :: rest => if isLoadingNode n then rest else n :: removeFirstLoading rest

/-- Effect of assigning renderMarkdown content to the innerHTML of the
content div: every previous child is discarded and the render slot for
the given content string remains.  We keep the render slot also for the
empty string; the claims only inspect badge nodes, loading nodes and
text, for which this makes no difference. -/
def setInnerHTML (_ns : List DomNode) (content : String) : List DomNode :=
  [DomNode.rendered content]

/-- Embedding of updateMessageContent(messageId, content): remove the
loading indicator if present, then overwrite the children through the
innerHTML assignment. -/
def updateMessageContent (ns : List DomNode) (content : String) : List DomNode :=
  setInnerHTML (removeFirstLoading ns) content

/-- One decoded wire event, as dispatched on the type field of the
JSON object carried after the data: marker.  The done payload carries
the conversation_id field as an Option because the code assigns the
raw field to the global conversation id, so a missing field stores the
undefined value rather than a string. -/
inductive Envelope where
  | content (c : String) : Envelope
  | tool_start (tool : String) : Envelope
  | tool_end (tool : String) : Envelope
  | done (id : Option String) : Envelope
  | error (msg : String) : Envelope
deriving DecidableEq, Repr

/-- Decoding of a single-character JSON escape (the form with a
four-digit code point is not modelled; no wire payload in this
development uses it). -/
def escChar (c : Char) : Option Char :=
  if c = quoteChar then some quoteChar
  else if c = backslashChar then some backslashChar
  else if c = '/' then some '/'
  else if c = 'n' then some (Char.ofNat 10)
  else if c = 't' then some (Char.ofNat 9)
  else if c = 'r' then some (Char.ofNat 13)
  else if c = 'b' then some (Char.ofNat 8)
  else if c = 'f' then some (Char.ofNat 12)
  else none

/-- Parse the body of a JSON string after its opening quote, returning
the decoded characters and the remaining input after the closing
quote; truncated or badly escaped strings fail, which models the
exception thrown by the JSON decoder on such input. -/
def parseStringBody : List Char → Option (List Char × List Char)
  | [] => none
  | c :: rest =>
    if c = quoteChar then some ([], rest)
    else if c = backslashChar then
      match rest with
      | [] => none
      | e :: rest2 =>
        match escChar e with
        | none => none
        | some d =>
          match parseStringBody rest2 with
          | none => none
          | some (s, r) => some (d :: s, r)
    else
      match parseStringBody rest with
      | none => none
      | some (s, r) => some (c :: s, r)

/-- Drop leading JSON whitespace. -/
def skipWs : List Char → List Char
  | [] => []
  | c :: rest =>
    if c = ' ' || c = Char.ofNat 9 || c = Char.ofNat 10 || c = Char.ofNat 13 then
      skipWs rest
    else c :: rest

/-- Parse one key-value member of a flat JSON object whose values are
strings, which is the shape of every envelope the protocol sends; any
other JSON value makes the decode fail, and a failed decode leaves the
reducer state unchanged exactly as a successfully decoded object with
an unrecognized type field would. -/
def parsePair (cs : List Char) : Option ((List Char × List Char) × List Char) :=
  match skipWs cs with
  | [] => none
  | c :: rest =>
    if c = quoteChar then
      match parseStringBody rest with
      | none => none
      | some (k, r1) =>
        match skipWs r1 with
        | ':' :: r2 =>
          match skipWs r2 with
          | [] => none
          | c2 :: r3 =>
            if c2 = quoteChar then
              match parseStringBody r3 with
              | none => none
              | some (v, r4) => some ((k, v), r4)
            else none
        | _ => none
    else none

/-- Parse the members of an object after its opening brace, with a fuel
bound for termination (the fuel passed in is the input length plus one,
which always suffices because every member consumes input). -/
def parseMembers : Nat → List Char → Option (List (String × String) × List Char)
  | 0, _ => none
  | Nat.succ fuel, cs =>
    match skipWs cs with
    | [] => none
    | c :: rest =>
      if c = rbraceChar then some ([], rest)
      else
        match parsePair (c :: rest) with
        | none => none
        | some ((k, v), r1) =>
          match skipWs r1 with
          | [] => none
          | c2 :: r2 =>
            if c2 = ',' then
              match parseMembers fuel r2 with
              | none => none
              | some (l, r3) => some ((String.mk k, String.mk v) :: l, r3)
            else if c2 = rbraceChar then
              some ([(String.mk k, String.mk v)], r2)
            else none

/-- Last binding of a key in the decoded object; JSON object literals
with a repeated key keep the last occurrence. -/
def lookupLast (obj : List (String × String)) (k : String) : Option String :=
  obj.foldl (fun acc p => if p.1 = k then some p.2 else acc) none

/-- Field access with the string coercion the code incurs when it
concatenates or interpolates a missing field. -/
def getField (obj : List (String × String)) (k : String) : String :=
  (lookupLast obj k).getD "undefined"

/-- Dispatch on the type field of a decoded object, mirroring the
if-else chain of the read loop; an unknown or missing type produces no
envelope, and the reducer state is then left unchanged. -/
def decodeEnvelope (obj : List (String × String)) : Option Envelope :=
  match lookupLast obj "type" with
  | none => none
  | some t =>
    if t = "content" then some (Envelope.content (getField obj "content"))
    else if t = "tool_start" then some (Envelope.tool_start (getField obj "tool"))
    else if t = "tool_end" then some (Envelope.tool_end (getField obj "tool"))
    else if t = "done" then some (Envelope.done (lookupLast obj "conversation_id"))
    else if t = "error" then some (Envelope.error (getField obj "error"))
    else none

/-- Decode the payload that follows the data: marker on one line: a
flat JSON object with string values and nothing but whitespace after
it.  Any input outside this shape yields none, which the read loop
treats exactly as the caught JSON exception: the line is ignored. -/
def parseEnvelope (payload : List Char) : Option Envelope :=
  match skipWs payload with
  | [] => none
  | c :: rest =>
    if c = lbraceChar then
      match parseMembers (rest.length + 1) rest with
      | none => none
      | some (obj, r) => if skipWs r = [] then decodeEnvelope obj else none
    else none

/-- Reducer state of one streaming turn: the fullContent accumulator
of the read loop, the child list of the assistant content div, and the
global currentConversationId, which the loop assigns on a done
envelope. -/
structure RState where
  fullContent : String
  children : List DomNode
  conversationId : Option String
deriving DecidableEq, Repr

/-- State right after addMessage created the pending assistant entry
with the loading indicator, parameterized by the conversation id the
client currently holds. -/
def initEntryState (cid : Option String) : RState :=
  { fullContent := "", children := [DomNode.loading], conversationId := cid }

/-- Application of one decoded envelope to the reducer state, the body
of the dispatch chain in the read loop.  A content envelope extends
fullContent and re-renders the whole entry from it; tool envelopes go
through showToolIndicator; done assigns the conversation id; error
re-renders the entry from the error text without touching
fullContent. -/
def applyEnvelope (st : RState) (e : Envelope) : RState :=
  match e with
  | Envelope.content c =>
    let f := st.fullContent ++ c
    { st with fullContent := f, children := updateMessageContent st.children f }
  | Envelope.tool_start t =>
    { st with children := showToolIndicator st.children t true }
  | Envelope.tool_end t =>
    { st with children := showToolIndicator st.children t false }
  | Envelope.done cid => { st with conversationId := cid }
  | Envelope.error msg =>
    { st with children := updateMessageContent st.children ("Error: " ++ msg) }

/-- Fold of the reducer over an already-decoded envelope sequence. -/
def reduceEnvelopes (st : RState) (es : List Envelope) : RState :=
  es.foldl applyEnvelope st

/-- Exact characters of the data: marker the loop tests with
startsWith before slicing six characters off the line. -/
def dataMarker : List Char := ['d', 'a', 't', 'a', ':', ' ']

/-- Processing of one line of a chunk: lines without the data: marker
are skipped, and a payload that fails to decode is ignored by the
catch handler; both leave the state untouched. -/
def processLine (st : RState) (line : List Char) : RState :=
  if dataMarker.isPrefixOf line then
    match parseEnvelope (line.drop 6) with
    | none => st
    | some e => applyEnvelope st e
  else st

/-- Split a decoded chunk on the newline character exactly as the
split call does: separators delimit fields, so a trailing newline
yields a trailing empty line and the empty chunk yields one empty
line. -/
def splitLinesAux : List Char → List Char → List (List Char)
  | [], acc => [acc.reverse]
  | c :: rest, acc =>
    if c = Char.ofNat 10 then acc.reverse :: splitLinesAux rest []
    else splitLinesAux rest (c :: acc)

/-- Lines of one decoded chunk. -/
def splitLines (cs : List Char) : List (List Char) :=
  splitLinesAux cs []

/-- Processing of one physical chunk: the loop splits the chunk into
lines and processes each line, starting from scratch on every chunk —
no partial line is carried over to the next chunk. -/
def processChunk (st : RState) (chunk : List Char) : RState :=
  (splitLines chunk).foldl processLine st

/-- Whole-stream reduction: fold of processChunk over the sequence of
decoded chunks delivered by the reader. -/
def processStream (st : RState) (chunks : List (List Char)) : RState :=
  chunks.foldl processChunk st

/-- One extracted page image of an uploaded document: page number and
base64 payload, the fields the rendering code reads. -/
structure PdfImage where
  page : Nat
  data : String
deriving DecidableEq, Repr

/-- The upload response kept in uploadedFileData: filename, extracted
text, extracted page images. -/
structure Upload where
  filename : String
  text_content : String
  images : List PdfImage
deriving DecidableEq, Repr

/-- One child of the pdf-images div attached to a user turn: either an
image thumbnail or the span summarizing the remaining pages. -/
inductive PdfNode where
  | thumb (page : Nat) (src : String) : PdfNode
  | moreSpan (text : String) : PdfNode
deriving DecidableEq, Repr

/-- Embedding of addPdfImages(images): the first five images become
thumbnails, and when more than five exist a span counts the rest. -/
def addPdfImages (images : List PdfImage) : List PdfNode :=
  (images.take 5).map
      (fun img => PdfNode.thumb img.page ("data:image/png;base64," ++ img.data)) ++
    (if 5 < images.length then
      [PdfNode.moreSpan ("+" ++ toString (images.length - 5) ++ " more pages")]
    else [])

/-- Number of thumbnails among pdf-images children. -/
def countThumbs (ns : List PdfNode) : Nat :=
  ns.countP (fun n =>
    match n with
    | PdfNode.thumb _ _ => true
    | _ => false)

/-- Combined turn text built by sendMessage when an upload is pending:
the fixed template places the extracted text before the literal user
message; with no upload the message is sent as is. -/
def buildFullMessage (upload : Option Upload) (message : String) : String :=
  match upload with
  | some u =>
    "[Uploaded PDF: " ++ u.filename ++ "]\n\nText content:\n" ++ u.text_content ++
      "\n\n---\n\nUser message: " ++ message
  | none => message

/-- Body of the POST request to the chat endpoint. -/
structure ChatRequest where
  message : String
  model_id : Option String
  conversation_id : Option String
  web_search_enabled : Bool
deriving DecidableEq, Repr

/-- Rendered user turn: its text plus the pdf-images children attached
under it. -/
structure UserEntry where
  text : String
  pdfImages : List PdfNode
deriving DecidableEq, Repr

/-- Client-side page state read and written by sendMessage: the input
box, the pending upload, the in-flight flag, the globals for the
conversation id and selected model, the web-search toggle, and the
transcript entries rendered so far. -/
structure ClientState where
  inputValue : String
  uploadedFileData : Option Upload
  isStreaming : Bool
  currentConversationId : Option String
  currentModel : Option String
  webSearchEnabled : Bool
  userEntries : List UserEntry
  assistantEntries : List RState
deriving DecidableEq, Repr

/-- Embedding of sendMessage on its success path, parameterized by the
chunk sequence the response reader will deliver.  The two initial
guards return with no request and no state change: an empty trimmed
message with no upload, or a turn already streaming.  Otherwise the
function builds the combined message, renders the user turn with up to
five page thumbnails, creates the pending assistant entry, sends the
request, folds the stream reducer over the chunks, removes any leftover
loading indicator, and in its cleanup resets the in-flight flag and the
pending upload. -/
def sendMessage (st : ClientState) (chunks : List (List Char)) :
    ClientState × Option ChatRequest :=
  let message := st.inputValue.trim
  if message = "" && st.uploadedFileData = none then (st, none)
  else if st.isStreaming then (st, none)
  else
    let fullMessage := buildFullMessage st.uploadedFileData message
    let userText :=
      match st.uploadedFileData with
      | some u => if message = "" then "[Uploaded PDF: " ++ u.filename ++ "]" else message
      | none => message
    let images :=
      match st.uploadedFileData with
      | some u => u.images
      | none => []
    let userEntry : UserEntry :=
      { text := userText,
        pdfImages := if 0 < images.length then addPdfImages images else [] }
    let req : ChatRequest :=
      { message := fullMessage,
        model_id := st.currentModel,
        conversation_id := st.currentConversationId,
        web_search_enabled := st.webSearchEnabled }
    let entryFinal := processStream (initEntryState st.currentConversationId) chunks
    let entryDone :=
      { entryFinal with children := removeFirstLoading entryFinal.children }
    ({ st with
        inputValue := "",
        uploadedFileData := none,
        isStreaming := false,
        currentConversationId := entryDone.conversationId,
        userEntries := st.userEntries ++ [userEntry],
        assistantEntries := st.assistantEntries ++ [entryDone] },
      some req)

lemma hasBadge_of_hasActiveBadge (ns : List DomNode) (x : String) :
    hasActiveBadge ns x = true → hasBadge ns x = true := by
  induction ns with
  | nil => intro h; simp [hasActiveBadge] at h
  | cons n rest ih =>
    intro h
    simp only [hasActiveBadge, List.any_cons, Bool.or_eq_true] at h
    simp only [hasBadge, List.any_cons, Bool.or_eq_true]
    cases h with
    | inl h1 =>
      left
      cases n with
      | loading => simp at h1
      | toolBadge t c txt =>
        simp only [Bool.and_eq_true] at h1
        simpa [isBadgeFor] using h1.1
      | rendered c => simp at h1
    | inr h2 => exact Or.inr (ih h2)

lemma hasBadge_insBeforeLoading (ns : List DomNode) (b : DomNode) (x : String)
    (hb : isBadgeFor b x = true) : hasBadge (insBeforeLoading ns b) x = true := by
  induction ns with
  | nil => simp [insBeforeLoading, hasBadge, hb]
  | cons n rest ih =>
    by_cases hl : isLoadingNode n = true
    · simp [insBeforeLoading, hl, hasBadge, hb]
    · simp only [insBeforeLoading, hl, Bool.false_eq_true, if_false]
      simp only [hasBadge, List.any_cons, Bool.or_eq_true] at ih ⊢
      exact Or.inr ih

lemma hasBadge_insertToolIndicator (ns : List DomNode) (b : DomNode) (x : String)
    (hb : isBadgeFor b x = true) : hasBadge (insertToolIndicator ns b) x = true := by
  unfold insertToolIndicator
  by_cases hl : hasLoading ns = true
  · simp [hl, hasBadge_insBeforeLoading ns b x hb]
  · simp only [hl, Bool.false_eq_true, if_false]
    simp [hasBadge, hb]

lemma countBadge_insBeforeLoading (ns : List DomNode) (b : DomNode) (x : String) :
    countBadge (insBeforeLoading ns b) x =
      countBadge ns x + (if isBadgeFor b x then 1 else 0) := by
  induction ns with
  | nil => simp [insBeforeLoading, countBadge, List.countP_cons]
  | cons n rest ih =>
    by_cases hl : isLoadingNode n = true
    · simp only [insBeforeLoading, hl, if_true]
      simp only [countBadge, List.countP_cons]
    · simp only [insBeforeLoading, hl, Bool.false_eq_true, if_false]
      simp only [countBadge, List.countP_cons] at ih ⊢
      omega

lemma countBadge_insertToolIndicator (ns : List DomNode) (b : DomNode) (x : String) :
    countBadge (insertToolIndicator ns b) x =
      countBadge ns x + (if isBadgeFor b x then 1 else 0) := by
  unfold insertToolIndicator
  by_cases hl : hasLoading ns = true
  · simp [hl, countBadge_insBeforeLoading]
  · simp only [hl, Bool.false_eq_true, if_false]
    simp only [countBadge, List.countP_cons]

lemma countBadge_eq_zero_of_not_hasBadge (ns : List DomNode) (x : String)
    (h : hasBadge ns x = false) : countBadge ns x = 0 := by
  induction ns with
  | nil => simp [countBadge]
  | cons n rest ih =>
    simp only [hasBadge, List.any_cons, Bool.or_eq_false_iff] at h
    simp only [countBadge, List.countP_cons, h.1, if_false]
    simpa [countBadge] using ih (by simpa [hasBadge] using h.2)

lemma markComplete_of_not_hasBadge (ns : List DomNode) (x : String)
    (h : hasBadge ns x = false) : markComplete ns x = ns := by
  induction ns with
  | nil => rfl
  | cons n rest ih =>
    simp only [hasBadge, List.any_cons, Bool.or_eq_false_iff] at h
    simp only [markComplete, h.1, Bool.false_eq_true, if_false]
    rw [ih (by simpa [hasBadge] using h.2)]

/-- C7: a tool_start for a tool that already has a badge is a no-op, so
duplicate starts are idempotent: applying tool_start twice equals
applying it once, and starting a tool with no prior badge yields
exactly one badge for it. -/
theorem tool_start_idempotent (ns : List DomNode) (x : String) :
    showToolIndicator (showToolIndicator ns x true) x true = showToolIndicator ns x true
    ∧ (hasActiveBadge ns x = true → showToolIndicator ns x true = ns)
    ∧ (hasBadge ns x = false → countBadge (showToolIndicator ns x true) x = 1) := by
  refine ⟨?_, ?_, ?_⟩
  · by_cases hb : hasBadge ns x = true
    · simp [showToolIndicator, hb]
    · have hb' : hasBadge ns x = false := by simpa using hb
      have hins :
          hasBadge
            (insertToolIndicator ns
              (DomNode.toolBadge x false ("Using: " ++ x ++ "..."))) x = true :=
        hasBadge_insertToolIndicator ns _ x (by simp [isBadgeFor])
      simp [showToolIndicator, hb', hins]
  · intro ha
    simp [showToolIndicator, hasBadge_of_hasActiveBadge ns x ha]
  · intro hb
    simp only [showToolIndicator, hb, Bool.false_eq_true, if_false, if_true]
    rw [countBadge_insertToolIndicator]
    simp [countBadge_eq_zero_of_not_hasBadge ns x hb, isBadgeFor]

/-- C7 witness: concrete idempotence, no-op on an existing active badge,
and a single created badge, all on small concrete child lists. -/
theorem tool_start_idempotent_witness :
    (showToolIndicator (showToolIndicator [DomNode.loading] "search" true) "search" true =
      showToolIndicator [DomNode.loading] "search" true)
    ∧ showToolIndicator
        [DomNode.toolBadge "search" false "Using: search...", DomNode.loading]
        "search" true =
        [DomNode.toolBadge "search" false "Using: search...", DomNode.loading]
    ∧ countBadge (showToolIndicator [DomNode.loading] "search" true) "search" = 1 :=
  ⟨(tool_start_idempotent [DomNode.loading] "search").1,
   (tool_start_idempotent
      [DomNode.toolBadge "search" false "Using: search...", DomNode.loading]
      "search").2.1 (by decide),
   (tool_start_idempotent [DomNode.loading] "search").2.2 (by decide)⟩

/-- C3 counterexample: a tool_end for a tool with no badge does not
create a badge in the complete state, against the claim that exactly
one complete badge appears; the signal is dropped. -/
theorem tool_end_without_start_creates_no_badge :
    ¬ countBadge
        ((applyEnvelope (initEntryState none) (Envelope.tool_end "x")).children) "x" = 1 := by
  decide

/-- C3 amended: applying tool_end for a tool with no badge leaves the
reducer state completely unchanged — no crash and never two badges,
but also no badge created. -/
theorem tool_end_without_badge_noop (st : RState) (x : String)
    (h : hasBadge st.children x = false) :
    applyEnvelope st (Envelope.tool_end x) = st := by
  cases st with
  | mk f ch cid =>
    simp only [applyEnvelope, showToolIndicator, Bool.false_eq_true, if_false]
    simp only at h
    rw [markComplete_of_not_hasBadge ch x h]

/-- C3 witness: the amended no-op at the concrete initial pending
entry. -/
theorem tool_end_without_badge_noop_witness :
    hasBadge (initEntryState none).children "search" = false
    ∧ applyEnvelope (initEntryState none) (Envelope.tool_end "search") = initEntryState none :=
  ⟨by decide, tool_end_without_badge_noop (initEntryState none) "search" (by decide)⟩

/-- Envelope sequence of the reference scenario for one turn. -/
def scenarioTurn : List Envelope :=
  [Envelope.tool_start "search", Envelope.content "The ", Envelope.content "answer",
   Envelope.tool_end "search", Envelope.content " is 42.", Envelope.done (some "abc")]

/-- C2 counterexample: the scenario does not reduce to a state with one
complete badge for search — the conjunction claimed for it fails,
because the innerHTML overwrite of the first content envelope destroys
the active badge and the later tool_end finds nothing to flip. -/
theorem scenario_reduction_claim_fails :
    ¬ ((reduceEnvelopes (initEntryState none) scenarioTurn).fullContent = "The answer is 42."
       ∧ countBadge (reduceEnvelopes (initEntryState none) scenarioTurn).children "search" = 1
       ∧ hasLoading (reduceEnvelopes (initEntryState none) scenarioTurn).children = false
       ∧ (reduceEnvelopes (initEntryState none) scenarioTurn).conversationId = some "abc") := by
  decide

/-- C2 amended: the scenario reduces to the claimed text, cleared
loading and session id abc, but with zero badges for search rather
than one. -/
theorem scenario_reduction_result :
    (reduceEnvelopes (initEntryState none) scenarioTurn).fullContent = "The answer is 42."
    ∧ countBadge (reduceEnvelopes (initEntryState none) scenarioTurn).children "search" = 0
    ∧ hasLoading (reduceEnvelopes (initEntryState none) scenarioTurn).children = false
    ∧ (reduceEnvelopes (initEntryState none) scenarioTurn).conversationId = some "abc" := by
  decide

/-- C1: the reduction is not invariant under re-chunking of the same
byte sequence — the same content line delivered whole yields the text
hi, while the same bytes split inside the line yield the empty text,
because each chunk is split on newlines with no partial-line carry and
both fragments are discarded. -/
theorem rechunking_changes_reduction :
    (processStream (initEntryState none)
        ["data: \x7b\"type\":\"content\",\"content\":\"hi\"\x7d\n\n".data]).fullContent = "hi"
    ∧ (processStream (initEntryState none)
        ["data: \x7b\"type\":\"content\",\"cont".data,
         "ent\":\"hi\"\x7d\n\n".data]).fullContent = "" := by
  decide

/-- Reducer state with one active badge and the loading indicator,
used to exhibit the effect of an error envelope on badges. -/
def activeBadgeState : RState :=
  { fullContent := "partial",
    children := [DomNode.toolBadge "search" false "Using: search...", DomNode.loading],
    conversationId := none }

/-- C4 counterexample: an error envelope does not leave the badges
unchanged — the badge for search present before the error is gone
afterwards, because the error path shares the innerHTML overwrite of
updateMessageContent. -/
theorem error_does_not_preserve_badges :
    ¬ countBadge ((applyEnvelope activeBadgeState (Envelope.error "boom")).children) "search" =
        countBadge activeBadgeState.children "search" := by
  decide

/-- C4 amended: an error envelope replaces the whole displayed entry
with the rendered error text, removing every tool badge and the
loading indicator, while the accumulated text and the session
identifier are untouched. -/
theorem error_replaces_display (st : RState) (msg : String) :
    applyEnvelope st (Envelope.error msg) =
      { st with children := [DomNode.rendered ("Error: " ++ msg)] } := rfl

/-- C5 counterexample: reducing a done envelope followed by a content
envelope differs from reducing the done envelope alone, so envelopes
after the terminal one are not rejected by the reducer. -/
theorem post_terminal_not_ignored :
    ¬ reduceEnvelopes (initEntryState none)
          [Envelope.done (some "a"), Envelope.content "x"] =
        reduceEnvelopes (initEntryState none) [Envelope.done (some "a")] := by
  decide

/-- C5 amended: the reducer keeps applying envelopes after a terminal
done — a following content envelope still extends the text and
re-renders the entry; equality with the prefix state therefore holds
only when the terminal envelope is the last one, as the wire invariant
guarantees on conforming streams. -/
theorem post_terminal_content_applied (st : RState) (i : Option String) (c : String) :
    reduceEnvelopes st [Envelope.done i, Envelope.content c] =
      { st with
          conversationId := i,
          fullContent := st.fullContent ++ c,
          children := updateMessageContent st.children (st.fullContent ++ c) } := rfl

/-- C6: a sendMessage call made while the in-flight flag is set returns
without sending a request and without touching any state, so a second
reducer is never started while one turn is streaming. -/
theorem sendMessage_rejected_while_streaming (st : ClientState) (chunks : List (List Char))
    (h : st.isStreaming = true) : sendMessage st chunks = (st, none) := by
  simp [sendMessage, h]

/-- Concrete client state with a prior turn still streaming. -/
def streamingState : ClientState :=
  { inputValue := "hello", uploadedFileData := none, isStreaming := true,
    currentConversationId := none, currentModel := some "m", webSearchEnabled := false,
    userEntries := [], assistantEntries := [] }

/-- C6 witness: the guard at the concrete streaming state. -/
theorem sendMessage_rejected_while_streaming_witness :
    sendMessage streamingState [] = (streamingState, none) :=
  sendMessage_rejected_while_streaming streamingState [] (by decide)

/-- C8 counterexample: an empty content envelope is not an identity of
the reduction step — on the initial pending entry it removes the
loading indicator and replaces the children with the empty render. -/
theorem empty_content_not_identity :
    ¬ applyEnvelope (initEntryState none) (Envelope.content "") = initEntryState none := by
  decide

/-- C8 amended: an empty content envelope leaves the accumulated text
and the session identifier unchanged but still re-renders the entry
from the accumulated text, clearing the loading indicator and any tool
badges; it is a display update, not a full no-op. -/
theorem empty_content_rerenders (st : RState) :
    applyEnvelope st (Envelope.content "") =
      { st with children := [DomNode.rendered st.fullContent] } := by
  cases st with
  | mk f ch cid =>
    simp [applyEnvelope, updateMessageContent, setInnerHTML]

lemma countThumbs_append (xs ys : List PdfNode) :
    countThumbs (xs ++ ys) = countThumbs xs + countThumbs ys := by
  simp [countThumbs, List.countP_append]

lemma countThumbs_map_thumb (l : List PdfImage) :
    countThumbs
        (l.map fun img => PdfNode.thumb img.page ("data:image/png;base64," ++ img.data)) =
      l.length := by
  induction l with
  | nil => rfl
  | cons a t ih =>
    simp only [countThumbs, List.map_cons, List.countP_cons] at ih ⊢
    simp [ih]

/-- C9: rendering an upload shows exactly the first five page images as
thumbnails, summarizes any remainder as a plus-count span, and the
combined turn text places the extracted document text before the
literal user text. -/
theorem addPdfImages_spec (u : Upload) (message : String) :
    countThumbs (addPdfImages u.images) = min u.images.length 5
    ∧ (5 < u.images.length →
        PdfNode.moreSpan ("+" ++ toString (u.images.length - 5) ++ " more pages") ∈
          addPdfImages u.images)
    ∧ ∃ pre mid,
        buildFullMessage (some u) message = pre ++ u.text_content ++ mid ++ message := by
  refine ⟨?_, ?_, ?_⟩
  · unfold addPdfImages
    rw [countThumbs_append, countThumbs_map_thumb]
    by_cases h5 : 5 < u.images.length <;>
      simp [h5, countThumbs, List.length_take] <;> omega
  · intro h5
    simp [addPdfImages, h5]
  · exact ⟨"[Uploaded PDF: " ++ u.filename ++ "]\n\nText content:\n",
      "\n\n---\n\nUser message: ", rfl⟩

/-- Concrete upload with seven extracted page images. -/
def sevenPageUpload : Upload :=
  { filename := "report.pdf", text_content := "Q3 report",
    images := [⟨1, "a"⟩, ⟨2, "b"⟩, ⟨3, "c"⟩, ⟨4, "d"⟩, ⟨5, "e"⟩, ⟨6, "f"⟩, ⟨7, "g"⟩] }

/-- C9 witness: the seven-image upload yields five thumbnails, a plus
two more pages span, and a combined text holding the extracted text
before the user text. -/
theorem addPdfImages_spec_witness :
    countThumbs (addPdfImages sevenPageUpload.images) = 5
    ∧ PdfNode.moreSpan "+2 more pages" ∈ addPdfImages sevenPageUpload.images
    ∧ ∃ pre mid,
        buildFullMessage (some sevenPageUpload) "summarize" =
          pre ++ "Q3 report" ++ mid ++ "summarize" := by
  refine ⟨?_, ?_, ?_⟩
  · have h := (addPdfImages_spec sevenPageUpload "summarize").1
    simpa using h
  · have h := (addPdfImages_spec sevenPageUpload "summarize").2.1 (by decide)
    have he : ("+" ++ toString (sevenPageUpload.images.length - 5) ++ " more pages") =
        "+2 more pages" := by decide
    rw [he] at h
    exact h
  · exact (addPdfImages_spec sevenPageUpload "summarize").2.2

/-- C10: the line consumer is total and ignores ill-formed input — a
line without the data: marker leaves the state unchanged, and so does
a marked line whose payload fails to decode, since the decode failure
is caught; no line can make the reducer fail. -/
theorem processLine_ignores_bad_lines (st : RState) (line : List Char) :
    (dataMarker.isPrefixOf line = false → processLine st line = st)
    ∧ (parseEnvelope (line.drop 6) = none → processLine st line = st) := by
  constructor
  · intro h
    simp [processLine, h]
  · intro h
    by_cases hp : dataMarker.isPrefixOf line
    · simp [processLine, hp, h]
    · simp [processLine, hp]

/-- C10 witness: a non-marked line and a marked line with a bad payload
both leave the concrete initial state unchanged. -/
theorem processLine_ignores_bad_lines_witness :
    processLine (initEntryState none) (": ping".data) = initEntryState none
    ∧ processLine (initEntryState none) ("data: oops".data) = initEntryState none :=
  ⟨(processLine_ignores_bad_lines (initEntryState none) (": ping".data)).1 (by decide),
   (processLine_ignores_bad_lines (initEntryState none) ("data: oops".data)).2 (by decide)⟩
